import Mathlib

/-!
Verification of the schema-registry / wire-codec layer of the monitoring
package (`pkg/monitoring/schema_registry.go`), as a shallow embedding.

Byte sequences are `List Nat` with every element `< 256` where relevant.
Go errors become `Except`-style results; the external srclient backend and
the JSON parser of the standard library are parameters of the embedding
(state-passing functions, respectively an abstract `parse` into a parsed
document type with decidable equality).
-/

/-- A registry error as seen by `EnsureSchema`: srclient errors carry a
human-readable message (`err.Error()` in Go); `statusCode` models the
structured classification (HTTP status) of the underlying response. -/
structure RegErr where
  statusCode : Nat
  msg : String
deriving DecidableEq, Repr

/-- The relevant part of `srclient.Schema`: accessors `ID()`, `Version()`
and `Schema()` (the schema document text). -/
structure SrclientSchema where
  id : Nat
  version : Nat
  schemaText : String
deriving DecidableEq, Repr

/-- The two operations of `srclient.SchemaRegistryClient` that
`schemaRegistry` uses, as state-passing functions over a backend state
`σ`.  `GetLatestSchema` is a read (no state change); `CreateSchema` may
change the registry state. -/
structure Backend (σ : Type) where
  getLatestSchema : σ → String → Except RegErr SrclientSchema
  createSchema : σ → String → String → Except RegErr SrclientSchema × σ

deriving instance DecidableEq for Except

/-- Character-list form of `strings.HasPrefix`. -/
def listHasPrefixAux : List Char → List Char → Bool
  | [], _ => true
  | _ :: _, [] => false
  | c :: cs, d :: ds => c == d && listHasPrefixAux cs ds

/-- `strings.HasPrefix p s`: does `s` start with `p`? -/
def strHasPrefixOf (p s : String) : Bool :=
  listHasPrefixAux p.toList s.toList

/-- `isNotFoundErr` from the source: a string-prefix test on the error
message, `strings.HasPrefix(err.Error(), "404 Not Found")`. -/
def isNotFoundErr (err : RegErr) : Bool :=
  strHasPrefixOf "404 Not Found" err.msg

/-- `isEqualJSON` from the source: `json.Unmarshal` both strings into
untyped documents and compare with `assert.ObjectsAreEqual`
(deep equality of the parsed values).  The standard-library unmarshaller
is the parameter `parse`; a `none` result is an unmarshalling error. -/
def isEqualJSON {Doc : Type} [DecidableEq Doc] (parse : String → Option Doc)
    (a b : String) : Except String Bool :=
  match parse a with
  | none => .error "failed to unmarshal first avro schema"
  | some aUntyped =>
    match parse b with
    | none => .error "failed to unmarshal second avro schema"
    | some bUntyped => .ok (aUntyped = bUntyped)

/-- `schemaRegistry.EnsureSchema` from the source, over an explicit
backend and backend state.  The third component of the result counts the
`CreateSchema` calls issued during the invocation (0 or 1), so that
"no create call is issued" is expressible. -/
def ensureSchema {σ Doc : Type} [DecidableEq Doc] (B : Backend σ)
    (parse : String → Option Doc) (st : σ) (subject spec : String) :
    Except String SrclientSchema × σ × Nat :=
  match B.getLatestSchema st subject with
  | .error err =>
    if isNotFoundErr err then
      match B.createSchema st subject spec with
      | (.error e, st2) =>
        (.error ("unable to create new schema with subject \x27" ++ subject
          ++ "\x27: " ++ e.msg), st2, 1)
      | (.ok newSchema, st2) => (.ok newSchema, st2, 1)
    else
      (.error ("failed to read schema for subject \x27" ++ subject
        ++ "\x27: " ++ err.msg), st, 0)
  | .ok registeredSchema =>
    match isEqualJSON parse registeredSchema.schemaText spec with
    | .error e =>
      (.error ("failed to compare schama in registry with local schema: "
        ++ e), st, 0)
    | .ok true => (.ok registeredSchema, st, 0)
    | .ok false =>
      match B.createSchema st subject spec with
      | (.error e, st2) =>
        (.error ("unable to update schema with subject \x27" ++ subject
          ++ "\x27: " ++ e.msg), st2, 1)
      | (.ok newSchema, st2) => (.ok newSchema, st2, 1)

/-- `SchemaRegistryConfig`: URL plus optional basic credentials. -/
structure SchemaRegistryConfig where
  url : String
  username : String
  password : String
deriving DecidableEq, Repr

/-- The client value built by `NewSchemaRegistry`: endpoint plus the
credentials attached to it (none when `SetCredentials` was not called). -/
structure ClientState where
  url : String
  credentials : Option (String × String)
deriving DecidableEq, Repr

/-- `srclient.CreateSchemaRegistryClient`: a fresh client with no
credentials attached. -/
def createSchemaRegistryClient (url : String) : ClientState :=
  { url := url, credentials := none }

/-- `backend.SetCredentials` from srclient: attaches the credentials. -/
def setCredentials (b : ClientState) (u p : String) : ClientState :=
  { b with credentials := some (u, p) }

/-- `NewSchemaRegistry` from the source: build the client and attach
credentials only when both username and password are non-empty. -/
def newSchemaRegistry (cfg : SchemaRegistryConfig) : ClientState :=
  let backend := createSchemaRegistryClient cfg.url
  if cfg.username ≠ "" ∧ cfg.password ≠ "" then
    setCredentials backend cfg.username cfg.password
  else
    backend

/-! ## Wire codec -/

/-- The goavro codec held by `srclient.Schema.Codec()`:
`BinaryFromNative(nil, value)` produces the avro payload and
`NativeFromBinary(buf)` decodes a value off the front of `buf`, returning
the value together with the remaining (undecoded) bytes. -/
structure Codec (α : Type) where
  binaryFromNative : α → Except String (List Nat)
  nativeFromBinary : List Nat → Except String (α × List Nat)

/-- `binary.BigEndian.PutUint32` of `uint32(id)`: the four big-endian
bytes of `id` reduced modulo `2 ^ 32`. -/
def beBytes4 (id : Nat) : List Nat :=
  [id % 2 ^ 32 / 2 ^ 24 % 256, id % 2 ^ 32 / 2 ^ 16 % 256,
   id % 2 ^ 32 / 2 ^ 8 % 256, id % 2 ^ 32 % 256]

/-- `wrapSchema.Encode` from the source: avro-encode the value, then
prepend the magic 0 byte and the 4 schema-id bytes. -/
def wrapEncode {α : Type} (sch : SrclientSchema) (c : Codec α) (value : α) :
    Except String (List Nat) :=
  match c.binaryFromNative value with
  | .error e => .error ("failed to encode value in avro: " ++ e)
  | .ok payload => .ok (0 :: (beBytes4 sch.id ++ payload))

/-- `wrapSchema.Decode` from the source: pass the buffer directly to
`NativeFromBinary` and drop the remaining bytes.  No length or marker
validation and no header stripping happens here. -/
def wrapDecode {α : Type} (c : Codec α) (buf : List Nat) :
    Except String α :=
  match c.nativeFromBinary buf with
  | .error e => .error e
  | .ok (value, _) => .ok value

/-! ## A concrete avro codec for the `long` primitive type

goavro encodes an avro `long` as the zig-zag transform of the value,
written as a little-endian base-128 varint.  This is the concrete codec
used to evaluate `Encode`/`Decode` at specific inputs. -/

/-- Zig-zag transform: nonnegative `n` to `2 * n`, negative `n` to
`-2 * n - 1`. -/
def zigzag (n : Int) : Nat :=
  if 0 ≤ n then 2 * n.toNat else 2 * (-n).toNat - 1

/-- Inverse zig-zag transform. -/
def unzigzag (u : Nat) : Int :=
  if u % 2 = 0 then (u / 2 : Nat) else -((u / 2 : Nat) : Int) - 1

/-- Little-endian base-128 varint of `n`, with explicit fuel (`n` itself
bounds the number of output groups). -/
def varintEncodeAux : Nat → Nat → List Nat
  | 0, n => [n % 128]
  | fuel + 1, n =>
    if n < 128 then [n] else (n % 128 + 128) :: varintEncodeAux fuel (n / 128)

/-- Little-endian base-128 varint encoding. -/
def varintEncode (n : Nat) : List Nat :=
  varintEncodeAux n n

/-- Read one little-endian base-128 varint off the front of a buffer,
returning the value and the remaining bytes. -/
def varintDecode : List Nat → Option (Nat × List Nat)
  | [] => none
  | b :: rest =>
    if b < 128 then some (b, rest)
    else
      match varintDecode rest with
      | none => none
      | some (n, r) => some (b - 128 + 128 * n, r)

/-- The goavro codec for the avro schema `{"type": "long"\x7d`. -/
def longCodec : Codec Int :=
  { binaryFromNative := fun n => .ok (varintEncode (zigzag n)),
    nativeFromBinary := fun buf =>
      match varintDecode buf with
      | none => .error "cannot decode binary long"
      | some (u, rest) => .ok (unzigzag u, rest) }

/-! ## The external registry, modelled from the spec -/

/-- Modelled from the spec: the state of the external authoritative
registry behind `srclient.SchemaRegistryClient` (the client's network
operations are third-party code, not part of this repository).  "A
mapping from subject to an ordered sequence of Schema versions, with a
latest pointer per subject"; only the latest version per subject is
observable through the two operations used here.  `nextId` models the
registry-assigned, globally unique id allocator. -/
structure RegState where
  latest : List (String × SrclientSchema)
  nextId : Nat
deriving DecidableEq, Repr

/-- Structural equality of two schema texts under a parse function:
equality of the parsed documents, false when either fails to parse. -/
def structurallyEqual {Doc : Type} [DecidableEq Doc]
    (parse : String → Option Doc) (a b : String) : Bool :=
  match parse a, parse b with
  | some x, some y => x = y
  | _, _ => false

/-- Modelled from the spec: `GetLatestSchema` — "GET latest schema for a
subject → returns schema identity or a not-found status".  The not-found
error message is the srclient-visible "404 Not Found" text that
`isNotFoundErr` tests for. -/
def specGetLatest (st : RegState) (subject : String) :
    Except RegErr SrclientSchema :=
  match st.latest.lookup subject with
  | some sch => .ok sch
  | none => .error ⟨404, "404 Not Found: no schema registered under subject"⟩

/-- Modelled from the spec: `CreateSchema` — "re-registering a
structurally identical document never allocates a new id/version;
registering a structurally different document always allocates a new id
and increments version"; a new subject starts at version 1. -/
def specCreate {Doc : Type} [DecidableEq Doc] (parse : String → Option Doc)
    (st : RegState) (subject spec : String) :
    Except RegErr SrclientSchema × RegState :=
  match st.latest.lookup subject with
  | some sch =>
    if structurallyEqual parse sch.schemaText spec then (.ok sch, st)
    else
      let ns : SrclientSchema := ⟨st.nextId, sch.version + 1, spec⟩
      (.ok ns, ⟨(subject, ns) :: st.latest, st.nextId + 1⟩)
  | none =>
    let ns : SrclientSchema := ⟨st.nextId, 1, spec⟩
    (.ok ns, ⟨(subject, ns) :: st.latest, st.nextId + 1⟩)

/-- The spec-modelled registry packaged as a `Backend`. -/
def specBackend {Doc : Type} [DecidableEq Doc]
    (parse : String → Option Doc) : Backend RegState :=
  { getLatestSchema := specGetLatest, createSchema := specCreate parse }

/-- A backend whose fetch always fails with the fixed error `e` and whose
create succeeds, used to evaluate `ensureSchema` at concrete inputs. -/
def fetchErrBackend (e : RegErr) : Backend Unit :=
  { getLatestSchema := fun _ _ => .error e,
    createSchema := fun _ _ spec => (.ok ⟨1, 1, spec⟩, ()) }

/-- A parse function that rejects every string, modelling input that is
not valid JSON. -/
def parseNone : String → Option Nat := fun _ => none

/-! ## Claims -/

/-- C1: the spec claims `Decode(Encode(schema, value)) = value`.  The
source's `Decode` passes the whole envelope — the 5-byte header
included — to `NativeFromBinary` without stripping or validating it
(the source marks `Decode` with a TODO), so the round trip fails: with
the avro `long` codec under schema id 1, the value 1 encodes to the
envelope `[0, 0, 0, 0, 1, 2]`, which decodes to 0, not 1. -/
theorem C1_round_trip_fails_on_envelope :
    wrapEncode ⟨1, 1, "long"⟩ longCodec 1 = .ok [0, 0, 0, 0, 1, 2] ∧
    wrapDecode longCodec [0, 0, 0, 0, 1, 2] = .ok (0 : Int) ∧
    (0 : Int) ≠ 1 := by
  decide

/-- C2: the spec claims `Decode` first validates length ≥ 5 and marker
byte 0, failing with a FormatError otherwise.  The source's `Decode`
performs no validation at all: the 3-byte input `[2, 2, 2]` decodes
successfully (to 1 with the avro `long` codec), and the 5-byte input
`[1, 0, 0, 0, 0]` whose first byte is 0x01 also decodes successfully
(to -1), with no error in either case. -/
theorem C2_decode_performs_no_validation :
    ([2, 2, 2] : List Nat).length = 3 ∧
    wrapDecode longCodec [2, 2, 2] = .ok (1 : Int) ∧
    ([1, 0, 0, 0, 0] : List Nat).length = 5 ∧
    ([1, 0, 0, 0, 0] : List Nat).head? = some 1 ∧
    wrapDecode longCodec [1, 0, 0, 0, 0] = .ok (-1 : Int) := by
  decide

/-- C3: whenever the avro serialization of `value` succeeds with payload
`p`, `Encode` returns `0x00`, then the 4 big-endian bytes of the schema
id as a 32-bit unsigned integer, then `p`; the output length is
`5 + p.length`, and for schema id 7 the first five bytes are
`0x00 0x00 0x00 0x00 0x07`. -/
theorem C3_encode_wire_layout {α : Type} (sch : SrclientSchema) (c : Codec α)
    (value : α) (p : List Nat) (h : c.binaryFromNative value = .ok p) :
    wrapEncode sch c value = .ok (0 :: (beBytes4 sch.id ++ p)) ∧
    (0 :: (beBytes4 sch.id ++ p)).length = 5 + p.length ∧
    (sch.id = 7 → (0 :: (beBytes4 sch.id ++ p)).take 5 = [0, 0, 0, 0, 7]) := by
  refine ⟨by simp [wrapEncode, h], by simp [beBytes4]; omega, ?_⟩
  intro h7
  rw [h7]
  have hb : beBytes4 7 = [0, 0, 0, 7] := by decide
  simp [hb]

/-- Witness for C3 at schema id 7 with the avro `long` codec and value 1
(payload `[2]`). -/
theorem C3_encode_wire_layout_witness :
    wrapEncode ⟨7, 1, "long"⟩ longCodec 1 = .ok (0 :: (beBytes4 7 ++ [2])) ∧
    (0 :: (beBytes4 (7 : Nat) ++ [2])).length = 5 + 1 ∧
    ((7 : Nat) = 7 → (0 :: (beBytes4 (7 : Nat) ++ [2])).take 5 = [0, 0, 0, 0, 7]) :=
  C3_encode_wire_layout ⟨7, 1, "long"⟩ longCodec 1 [2] (by decide)

/-- C4: two schema texts that are byte-different but parse to the same
document are classified as equal by `isEqualJSON`, and `EnsureSchema`
with such a spec against a registry holding the other text returns the
registered schema with no create call and an unchanged backend state. -/
theorem C4_structural_equality_no_create {σ Doc : Type} [DecidableEq Doc]
    (parse : String → Option Doc) (a b : String) (d : Doc) (_hab : a ≠ b)
    (ha : parse a = some d) (hb : parse b = some d) (B : Backend σ) (st : σ)
    (subject : String) (reg : SrclientSchema) (hreg : reg.schemaText = a)
    (hfetch : B.getLatestSchema st subject = .ok reg) :
    isEqualJSON parse a b = .ok true ∧
    ensureSchema B parse st subject b = (.ok reg, st, 0) := by
  have heq : isEqualJSON parse a b = .ok true := by
    simp [isEqualJSON, ha, hb]
  refine ⟨heq, ?_⟩
  simp [ensureSchema, hfetch, hreg, heq]

/-- Witness for C4: the texts "A" and "B" differ but parse to the same
document 0 under the concrete parse function. -/
theorem C4_structural_equality_no_create_witness :
    isEqualJSON (fun s => if s = "A" ∨ s = "B" then some 0 else none)
      "A" "B" = .ok true ∧
    ensureSchema (Backend.mk (fun _ _ => .ok ⟨5, 2, "A"⟩)
        (fun _ _ spec => (.ok ⟨9, 9, spec⟩, ())))
      (fun s => if s = "A" ∨ s = "B" then some 0 else none) () "subj" "B" =
      (.ok ⟨5, 2, "A"⟩, (), 0) :=
  C4_structural_equality_no_create
    (fun s => if s = "A" ∨ s = "B" then some 0 else none) "A" "B" 0
    (by decide) (by decide) (by decide)
    (Backend.mk (fun _ _ => .ok ⟨5, 2, "A"⟩)
      (fun _ _ spec => (.ok ⟨9, 9, spec⟩, ()))) () "subj" ⟨5, 2, "A"⟩
    rfl rfl

/-- C6: when the fetch of the latest schema fails with an error that is
not classified not-found, `EnsureSchema` returns that error wrapped with
the subject context, the backend state is unchanged, and no create call
is issued. -/
theorem C6_other_fetch_error_propagates {σ Doc : Type} [DecidableEq Doc]
    (B : Backend σ) (parse : String → Option Doc) (st : σ)
    (subject spec : String) (e : RegErr)
    (hfetch : B.getLatestSchema st subject = .error e)
    (hnf : isNotFoundErr e = false) :
    ensureSchema B parse st subject spec =
      (.error ("failed to read schema for subject \x27" ++ subject
        ++ "\x27: " ++ e.msg), st, 0) := by
  simp [ensureSchema, hfetch, hnf]

/-- Witness for C6: a 500-class error whose message lacks the
"404 Not Found" prefix is propagated with zero create calls. -/
theorem C6_other_fetch_error_propagates_witness :
    ensureSchema (fetchErrBackend ⟨500, "connection refused"⟩) parseNone ()
      "subj" "spec" =
      (.error ("failed to read schema for subject \x27subj\x27: "
        ++ "connection refused"), (), 0) :=
  C6_other_fetch_error_propagates (fetchErrBackend ⟨500, "connection refused"⟩)
    parseNone () "subj" "spec" ⟨500, "connection refused"⟩ rfl (by decide)

/-- C7: when the fetch succeeds and the registered document compares
structurally equal to the caller's spec, `EnsureSchema` returns exactly
the fetched schema (same id and version), the backend state is
unchanged, and no create call is issued. -/
theorem C7_equal_schema_no_write {σ Doc : Type} [DecidableEq Doc]
    (B : Backend σ) (parse : String → Option Doc) (st : σ)
    (subject spec : String) (reg : SrclientSchema)
    (hfetch : B.getLatestSchema st subject = .ok reg)
    (heq : isEqualJSON parse reg.schemaText spec = .ok true) :
    ensureSchema B parse st subject spec = (.ok reg, st, 0) := by
  simp [ensureSchema, hfetch, heq]

/-- Witness for C7: a registry holding the identical text "A". -/
theorem C7_equal_schema_no_write_witness :
    ensureSchema (Backend.mk (fun _ _ => .ok ⟨3, 4, "A"⟩)
        (fun _ _ spec => (.ok ⟨9, 9, spec⟩, ())))
      (fun s => if s = "A" then some 0 else none) () "subj" "A" =
      (.ok ⟨3, 4, "A"⟩, (), 0) :=
  C7_equal_schema_no_write
    (Backend.mk (fun _ _ => .ok ⟨3, 4, "A"⟩)
      (fun _ _ spec => (.ok ⟨9, 9, spec⟩, ())))
    (fun s => if s = "A" then some 0 else none) () "subj" "A" ⟨3, 4, "A"⟩
    rfl (by decide)

/-- C5: the claim says not-found is detected via a structured signal, so
two fetch errors with the same structured classification but different
message texts take the same branch.  Counterexample: two errors, both
with HTTP status 404, where only one message starts with
"404 Not Found" — `EnsureSchema` issues a create for the first and
propagates an error (zero creates) for the second. -/
theorem C5_counterexample_text_matching :
    (RegErr.mk 404 "404 Not Found: subject not registered").statusCode =
      (RegErr.mk 404 "schema not found for subject").statusCode ∧
    (RegErr.mk 404 "404 Not Found: subject not registered").msg ≠
      (RegErr.mk 404 "schema not found for subject").msg ∧
    (ensureSchema (fetchErrBackend ⟨404, "404 Not Found: subject not registered"⟩)
      parseNone () "subj" "spec").2.2 = 1 ∧
    (ensureSchema (fetchErrBackend ⟨404, "schema not found for subject"⟩)
      parseNone () "subj" "spec").2.2 = 0 := by
  decide

/-- C5 (amended): `EnsureSchema` classifies a fetch error as not-found by
string matching on the error message — it takes the create path exactly
when the message starts with "404 Not Found" — and the classification is
insensitive to any structured status attached to the error. -/
theorem C5_amended_branch_by_message_text {σ Doc : Type} [DecidableEq Doc]
    (B : Backend σ) (parse : String → Option Doc) (st : σ)
    (subject spec : String) (e : RegErr)
    (hfetch : B.getLatestSchema st subject = .error e) :
    (∀ c : Nat, isNotFoundErr ⟨c, e.msg⟩ = isNotFoundErr e) ∧
    (ensureSchema B parse st subject spec).2.2 =
      (if strHasPrefixOf "404 Not Found" e.msg then 1 else 0) := by
  refine ⟨fun c => rfl, ?_⟩
  have hmsg : isNotFoundErr e = strHasPrefixOf "404 Not Found" e.msg := rfl
  cases hnf : strHasPrefixOf "404 Not Found" e.msg with
  | false => simp [ensureSchema, hfetch, hmsg, hnf]
  | true =>
    rcases hcr : B.createSchema st subject spec with ⟨r, st2⟩
    cases r <;> simp [ensureSchema, hfetch, hmsg, hnf, hcr]

/-- Witness for the amended C5 at a concrete 404 error whose message has
the matched prefix. -/
theorem C5_amended_branch_by_message_text_witness :
    (∀ c : Nat, isNotFoundErr ⟨c, (RegErr.mk 404 "404 Not Found: x").msg⟩ =
      isNotFoundErr ⟨404, "404 Not Found: x"⟩) ∧
    (ensureSchema (fetchErrBackend ⟨404, "404 Not Found: x"⟩) parseNone ()
      "subj" "spec").2.2 =
      (if strHasPrefixOf "404 Not Found"
        (RegErr.mk 404 "404 Not Found: x").msg then 1 else 0) :=
  C5_amended_branch_by_message_text (fetchErrBackend ⟨404, "404 Not Found: x"⟩)
    parseNone () "subj" "spec" ⟨404, "404 Not Found: x"⟩ rfl

/-- C8: against the spec-modelled registry, two successive `EnsureSchema`
calls with the same subject and spec (the subject initially fresh) return
the same schema (same id and version), with one create call on the first
invocation and zero on the second; a third call with a structurally
different spec allocates a new id and increments the version. -/
theorem C8_idempotence_and_version_bump {Doc : Type} [DecidableEq Doc]
    (parse : String → Option Doc) (st0 : RegState)
    (subject spec spec2 : String) (d d2 : Doc)
    (hs : parse spec = some d) (hs2 : parse spec2 = some d2) (hne : d ≠ d2)
    (hfresh : st0.latest.lookup subject = none) :
    ensureSchema (specBackend parse) parse st0 subject spec =
      (.ok ⟨st0.nextId, 1, spec⟩,
        ⟨(subject, ⟨st0.nextId, 1, spec⟩) :: st0.latest, st0.nextId + 1⟩, 1) ∧
    ensureSchema (specBackend parse) parse
        ⟨(subject, ⟨st0.nextId, 1, spec⟩) :: st0.latest, st0.nextId + 1⟩
        subject spec =
      (.ok ⟨st0.nextId, 1, spec⟩,
        ⟨(subject, ⟨st0.nextId, 1, spec⟩) :: st0.latest, st0.nextId + 1⟩, 0) ∧
    ensureSchema (specBackend parse) parse
        ⟨(subject, ⟨st0.nextId, 1, spec⟩) :: st0.latest, st0.nextId + 1⟩
        subject spec2 =
      (.ok ⟨st0.nextId + 1, 2, spec2⟩,
        ⟨(subject, ⟨st0.nextId + 1, 2, spec2⟩) ::
          ((subject, ⟨st0.nextId, 1, spec⟩) :: st0.latest),
         st0.nextId + 2⟩, 1) ∧
    st0.nextId + 1 ≠ st0.nextId ∧ (2 : Nat) = 1 + 1 := by
  have h404 : isNotFoundErr
      ⟨404, "404 Not Found: no schema registered under subject"⟩ = true := by
    decide
  refine ⟨?_, ?_, ?_, by omega, rfl⟩
  · simp [ensureSchema, specBackend, specGetLatest, specCreate, hfresh, h404]
  · simp [ensureSchema, specBackend, specGetLatest, specCreate, isEqualJSON,
      List.lookup, hs]
  · simp [ensureSchema, specBackend, specGetLatest, specCreate, isEqualJSON,
      structurallyEqual, List.lookup, hs, hs2, hne]

/-- Witness for C8: fresh registry, subject "subj", spec "A" (parsing to
document 0) and structurally different spec "B" (parsing to 1). -/
theorem C8_idempotence_and_version_bump_witness :
    ensureSchema
      (specBackend (fun s => if s = "A" then some 0 else
        if s = "B" then some 1 else none))
      (fun s => if s = "A" then some 0 else if s = "B" then some 1 else none)
      ⟨[], 0⟩ "subj" "A" =
      (.ok ⟨0, 1, "A"⟩, ⟨[("subj", ⟨0, 1, "A"⟩)], 1⟩, 1) ∧
    ensureSchema
      (specBackend (fun s => if s = "A" then some 0 else
        if s = "B" then some 1 else none))
      (fun s => if s = "A" then some 0 else if s = "B" then some 1 else none)
      ⟨[("subj", ⟨0, 1, "A"⟩)], 1⟩ "subj" "A" =
      (.ok ⟨0, 1, "A"⟩, ⟨[("subj", ⟨0, 1, "A"⟩)], 1⟩, 0) ∧
    ensureSchema
      (specBackend (fun s => if s = "A" then some 0 else
        if s = "B" then some 1 else none))
      (fun s => if s = "A" then some 0 else if s = "B" then some 1 else none)
      ⟨[("subj", ⟨0, 1, "A"⟩)], 1⟩ "subj" "B" =
      (.ok ⟨1, 2, "B"⟩, ⟨[("subj", ⟨1, 2, "B"⟩), ("subj", ⟨0, 1, "A"⟩)], 2⟩, 1) ∧
    (0 : Nat) + 1 ≠ 0 ∧ (2 : Nat) = 1 + 1 :=
  C8_idempotence_and_version_bump
    (fun s => if s = "A" then some 0 else if s = "B" then some 1 else none)
    ⟨[], 0⟩ "subj" "A" "B" 0 1 (by decide) (by decide) (by decide) rfl

/-- C9: `NewSchemaRegistry` attaches the configured credentials to the
backend exactly when both the username and the password are non-empty;
otherwise the client carries no credentials.  The endpoint is always the
configured URL. -/
theorem C9_credentials_iff_both_nonempty (cfg : SchemaRegistryConfig) :
    ((newSchemaRegistry cfg).credentials = some (cfg.username, cfg.password)
      ↔ cfg.username ≠ "" ∧ cfg.password ≠ "") ∧
    ((newSchemaRegistry cfg).credentials = none
      ↔ (cfg.username = "" ∨ cfg.password = "")) ∧
    (newSchemaRegistry cfg).url = cfg.url := by
  by_cases h : cfg.username ≠ "" ∧ cfg.password ≠ "" <;>
    simp [newSchemaRegistry, createSchemaRegistryClient, setCredentials, h] <;>
    tauto

/-- Witness for C9 at a configuration with both credentials set. -/
theorem C9_credentials_iff_both_nonempty_witness :
    ((newSchemaRegistry ⟨"http://r", "user", "pass"⟩).credentials =
        some ("user", "pass") ↔
      ("user" : String) ≠ "" ∧ ("pass" : String) ≠ "") ∧
    ((newSchemaRegistry ⟨"http://r", "user", "pass"⟩).credentials = none ↔
      (("user" : String) = "" ∨ ("pass" : String) = "")) ∧
    (newSchemaRegistry ⟨"http://r", "user", "pass"⟩).url = "http://r" :=
  C9_credentials_iff_both_nonempty ⟨"http://r", "user", "pass"⟩

/-- C10: on the not-found path the spec string is forwarded to the
create operation without any local parsing: for any `parse` function —
in particular one on which the spec does not parse — if the fetch error
is classified not-found and the create succeeds, `EnsureSchema` returns
the created schema. -/
theorem C10_not_found_forwards_spec_unparsed {σ Doc : Type} [DecidableEq Doc]
    (B : Backend σ) (parse : String → Option Doc) (st : σ)
    (subject spec : String) (e : RegErr) (ns : SrclientSchema) (st2 : σ)
    (hfetch : B.getLatestSchema st subject = .error e)
    (hnf : isNotFoundErr e = true)
    (hcreate : B.createSchema st subject spec = (.ok ns, st2)) :
    ensureSchema B parse st subject spec = (.ok ns, st2, 1) := by
  simp [ensureSchema, hfetch, hnf, hcreate]

/-- Witness for C10: a spec that is not valid JSON (every string fails to
parse under `parseNone`) still registers successfully on the not-found
path. -/
theorem C10_not_found_forwards_spec_unparsed_witness :
    parseNone "this is not valid json" = none ∧
    ensureSchema (fetchErrBackend ⟨404, "404 Not Found: x"⟩) parseNone ()
      "subj" "this is not valid json" =
      (.ok ⟨1, 1, "this is not valid json"⟩, (), 1) :=
  ⟨rfl,
    C10_not_found_forwards_spec_unparsed
      (fetchErrBackend ⟨404, "404 Not Found: x"⟩) parseNone ()
      "subj" "this is not valid json" ⟨404, "404 Not Found: x"⟩
      ⟨1, 1, "this is not valid json"⟩ () rfl (by decide) rfl⟩
